import Mathlib

/-!
Verification development for the opencode-jb repository.

The repository holds two Python scripts:
* `scripts/init_project.py` — an IntelliJ plugin project initializer that
  creates a directory tree and writes five files, substituting placeholder
  strings in three templated assets with Python `str.replace`;
* `scripts/simple_client.py` — a minimal HTTP client for a local chat-session
  REST API (health check, list sessions, create session, send one message).

Strings are embedded as `List Char`.  Python `str.replace` is modelled by
`pyReplace` below: it scans left to right and replaces every non-overlapping
occurrence of the pattern, exactly as CPython does.  The recursion is driven
by a fuel argument equal to the string length so that all definitions are
structural and evaluate by `decide` / `rfl`.
-/

/-- Boolean test that `old` is a leading segment of `s`
(the check CPython performs at each scan position). -/
def leadsWith : List Char → List Char → Bool
  | [], _ => true
  | _ :: _, [] => false
  | a :: as, b :: bs => a == b && leadsWith as bs

/-- One fuel-indexed scan step of Python `str.replace`: at each position,
if the remaining input starts with `old` (and `old` is non-empty), emit
`new` and skip `old.length` characters, otherwise emit one character. -/
def replGo : Nat → List Char → List Char → List Char → List Char
  | 0, s, _, _ => s
  | _ + 1, [], _, _ => []
  | f + 1, c :: cs, old, new =>
    if old ≠ [] ∧ leadsWith old (c :: cs) then
      new ++ replGo f (List.drop (old.length - 1) cs) old new
    else
      c :: replGo f cs old new

/-- Model of Python `s.replace(old, new)`: replaces every non-overlapping
occurrence of `old`, scanning left to right.  For `old = ""` CPython inserts
`new` before every character and at the end. -/
def pyReplace (s old new : List Char) : List Char :=
  if old = [] then new ++ List.flatten (s.map (fun c => c :: new))
  else replGo s.length s old new

/-- Fuel-indexed count of the non-overlapping occurrences of `old` that the
`str.replace` scan of `s` substitutes (same scan as `replGo`). -/
def occGo : Nat → List Char → List Char → Nat
  | 0, _, _ => 0
  | _ + 1, [], _ => 0
  | f + 1, c :: cs, old =>
    if old ≠ [] ∧ leadsWith old (c :: cs) then
      occGo f (List.drop (old.length - 1) cs) old + 1
    else
      occGo f cs old

/-- Number of non-overlapping occurrences of `old` in `s`
(equivalently, the number of substitutions `str.replace` performs). -/
def countOcc (s old : List Char) : Nat := occGo s.length s old

/-- There is no occurrence of `old` anywhere in `s`
(position-wise, so it is decidable by a bounded scan). -/
def NoOcc (old s : List Char) : Prop :=
  ∀ i, i ≤ s.length → leadsWith old (List.drop i s) = false

/-- No occurrence of `old` in `a ++ old ++ b` starts strictly before the
distinguished occurrence at position `a.length`. -/
def NoEarly (old a b : List Char) : Prop :=
  ∀ i, i < a.length → leadsWith old (List.drop i (a ++ old ++ b)) = false

instance (old s : List Char) : Decidable (NoOcc old s) :=
  inferInstanceAs (Decidable (∀ i, i ≤ s.length → leadsWith old (List.drop i s) = false))

instance (old a b : List Char) : Decidable (NoEarly old a b) :=
  inferInstanceAs
    (Decidable (∀ i, i < a.length → leadsWith old (List.drop i (a ++ old ++ b)) = false))

theorem replGo_nil (f : Nat) (old new : List Char) : replGo f [] old new = [] := by
  cases f <;> rfl

theorem leadsWith_self_append (l t : List Char) : leadsWith l (l ++ t) = true := by
  induction l with
  | nil => rfl
  | cons a as ih => simp [leadsWith, ih]

theorem drop_length_append (l t : List Char) : List.drop l.length (l ++ t) = t := by
  induction l with
  | nil => rfl
  | cons a as ih => simp [ih]

theorem replGo_fuel : ∀ (f g : Nat) (s old new : List Char),
    s.length ≤ f → s.length ≤ g → replGo f s old new = replGo g s old new := by
  intro f
  induction f with
  | zero =>
    intro g s old new hf _
    have hs : s = [] := List.eq_nil_of_length_eq_zero (Nat.le_zero.mp hf)
    subst hs
    rw [replGo_nil, replGo_nil]
  | succ f ih =>
    intro g s old new hf hg
    cases s with
    | nil => rw [replGo_nil, replGo_nil]
    | cons c cs =>
      obtain ⟨g', rfl⟩ : ∃ g', g = g' + 1 := by
        cases g with
        | zero => exact absurd hg (by simp)
        | succ g' => exact ⟨g', rfl⟩
      simp only [replGo]
      have hcs : cs.length ≤ f := by
        have := hf
        simp only [List.length_cons] at this
        omega
      have hcs' : cs.length ≤ g' := by
        have := hg
        simp only [List.length_cons] at this
        omega
      have hdrop : (List.drop (old.length - 1) cs).length ≤ cs.length := by
        simp [List.length_drop]
      by_cases h : old ≠ [] ∧ leadsWith old (c :: cs) = true
      · rw [if_pos h, if_pos h]
        have := ih g' (List.drop (old.length - 1) cs) old new
          (Nat.le_trans hdrop hcs) (Nat.le_trans hdrop hcs')
        rw [this]
      · rw [if_neg h, if_neg h]
        rw [ih g' cs old new hcs hcs']

theorem replGo_noOcc : ∀ (f : Nat) (s old new : List Char),
    s.length ≤ f → NoOcc old s → replGo f s old new = s := by
  intro f
  induction f with
  | zero =>
    intro s old new hf _
    have hs : s = [] := List.eq_nil_of_length_eq_zero (Nat.le_zero.mp hf)
    subst hs
    rfl
  | succ f ih =>
    intro s old new hf hno
    cases s with
    | nil => rfl
    | cons c cs =>
      simp only [replGo]
      have h0 : leadsWith old (c :: cs) = false := by
        have := hno 0 (by simp)
        simpa using this
      rw [if_neg (by simp [h0])]
      have hcs : cs.length ≤ f := by
        have := hf
        simp only [List.length_cons] at this
        omega
      have hno' : NoOcc old cs := by
        intro i hi
        have := hno (i + 1) (by simp; omega)
        simpa [List.drop_succ_cons] using this
      rw [ih cs old new hcs hno']

/-- `pyReplace` leaves a string unchanged when the pattern does not occur. -/
theorem pyReplace_noOcc (s old new : List Char) (h : old ≠ []) (hno : NoOcc old s) :
    pyReplace s old new = s := by
  unfold pyReplace
  rw [if_neg h]
  exact replGo_noOcc s.length s old new le_rfl hno

theorem replGo_split : ∀ (a : List Char) (f : Nat) (b old new : List Char),
    old ≠ [] → (a ++ old ++ b).length ≤ f → NoEarly old a b →
    replGo f (a ++ old ++ b) old new = a ++ new ++ replGo b.length b old new := by
  intro a
  induction a with
  | nil =>
    intro f b old new hold hf _
    obtain ⟨o, os, rfl⟩ : ∃ o os, old = o :: os := by
      cases old with
      | nil => exact absurd rfl hold
      | cons o os => exact ⟨o, os, rfl⟩
    obtain ⟨f', rfl⟩ : ∃ f', f = f' + 1 := by
      cases f with
      | zero =>
        exfalso
        have := hf
        simp [List.length_append] at this
      | succ f' => exact ⟨f', rfl⟩
    have hshape : ([] : List Char) ++ (o :: os) ++ b = o :: (os ++ b) := by simp
    rw [hshape]
    simp only [replGo]
    have hlead : leadsWith (o :: os) (o :: (os ++ b)) = true := by
      have := leadsWith_self_append (o :: os) b
      simpa using this
    rw [if_pos ⟨by simp, hlead⟩]
    have hdlen : (o :: os).length - 1 = os.length := by simp
    rw [hdlen, drop_length_append]
    have hblen : b.length ≤ f' := by
      have := hf
      simp [List.length_append] at this
      omega
    rw [replGo_fuel f' b.length b (o :: os) new hblen le_rfl]
    simp
  | cons x a' ih =>
    intro f b old new hold hf hne
    obtain ⟨f', rfl⟩ : ∃ f', f = f' + 1 := by
      cases f with
      | zero =>
        exfalso
        have := hf
        simp [List.length_append] at this
      | succ f' => exact ⟨f', rfl⟩
    have hshape : (x :: a') ++ old ++ b = x :: (a' ++ old ++ b) := by simp
    rw [hshape]
    simp only [replGo]
    have h0 : leadsWith old (List.drop 0 ((x :: a') ++ old ++ b)) = false :=
      hne 0 (by simp)
    have h0' : leadsWith old (x :: (a' ++ old ++ b)) = false := by
      rw [← hshape]
      simpa using h0
    have hcond : ¬(old ≠ [] ∧ leadsWith old (x :: (a' ++ old ++ b)) = true) := by
      intro hc
      rw [h0'] at hc
      exact Bool.false_ne_true hc.2
    rw [if_neg hcond]
    have hlen : (a' ++ old ++ b).length ≤ f' := by
      have := hf
      simp [List.length_append] at this
      simp [List.length_append]
      omega
    have hne' : NoEarly old a' b := by
      intro i hi
      have := hne (i + 1) (by simp; omega)
      have hd : List.drop (i + 1) ((x :: a') ++ old ++ b)
          = List.drop i (a' ++ old ++ b) := by
        rw [hshape, List.drop_succ_cons]
      rwa [hd] at this
    rw [ih f' b old new hold hlen hne']
    simp

/-- Leftmost-occurrence equation for `pyReplace`: the scan replaces the
first occurrence of the pattern and continues on the remainder. -/
theorem pyReplace_split (a b old new : List Char) (hold : old ≠ [])
    (hne : NoEarly old a b) :
    pyReplace (a ++ old ++ b) old new = a ++ new ++ pyReplace b old new := by
  unfold pyReplace
  rw [if_neg hold, if_neg hold]
  exact replGo_split a (a ++ old ++ b).length b old new hold le_rfl hne

/-- When the pattern occurs exactly once (at the split point), `pyReplace`
substitutes it exactly once. -/
theorem pyReplace_single (a b old new : List Char) (hold : old ≠ [])
    (hne : NoEarly old a b) (hb : NoOcc old b) :
    pyReplace (a ++ old ++ b) old new = a ++ new ++ b := by
  rw [pyReplace_split a b old new hold hne, pyReplace_noOcc b old new hold hb]


/-!
## Project initializer (`scripts/init_project.py`)

The asset templates live outside the script, so they are parameters of the
embedding (`Assets`).  Paths are modelled as lists of components; the
absolute target directory computed by `os.path.abspath(os.path.join(...))`
is abstracted as the component list `targetDir ++ [projectName]`.
-/

/-- Model of Python `str.split(sep)` for a one-character separator:
`"" ↦ [""]`, `"a..b" ↦ ["a", "", "b"]`. -/
def splitOnChar (sep : Char) : List Char → List (List Char)
  | [] => [[]]
  | c :: cs =>
    let r := splitOnChar sep cs
    if c = sep then [] :: r
    else
      match r with
      | [] => [[c]]
      | h :: t => (c :: h) :: t


/-- Placeholder replaced in `settings.gradle.kts`. -/
def settingsPh : List Char := ("rootProject.name = \"my-intellij-plugin\"").data

/-- Replacement written to `settings.gradle.kts`: `rootProject.name = "{project_name}"`. -/
def settingsSub (projectName : List Char) : List Char :=
  ("rootProject.name = \"").data ++ projectName ++ ("\"").data

/-- Placeholder replaced in `build.gradle.kts`. -/
def groupPh : List Char := ("group = \"com.example\"").data

/-- Replacement written to `build.gradle.kts`: `group = "{package_name}"`. -/
def groupSub (packageName : List Char) : List Char :=
  ("group = \"").data ++ packageName ++ ("\"").data

/-- Plugin-id placeholder replaced in `plugin.xml`. -/
def idPh : List Char := ("<id>com.example.plugin-id</id>").data

/-- Replacement for the plugin-id placeholder: `<id>{plugin_id}</id>`. -/
def idSub (pluginId : List Char) : List Char :=
  ("<id>").data ++ pluginId ++ ("</id>").data

/-- Display-name placeholder replaced in `plugin.xml`. -/
def namePh : List Char := ("<name>Plugin Display Name</name>").data

/-- Replacement for the display-name placeholder: `<name>{project_name}</name>`. -/
def nameSub (projectName : List Char) : List Char :=
  ("<name>").data ++ projectName ++ ("</name>").data

/-- CLI arguments of `init_project.py`: two positional names and the
(absolute) target directory, as path components. -/
structure InitArgs where
  projectName : List Char
  packageName : List Char
  targetDir : List (List Char)

/-- Contents of the five asset files read from the skill's `assets/` directory
(they are not part of the repository source, so they are parameters). -/
structure Assets where
  settingsTemplate : List Char
  buildTemplate : List Char
  gradleProperties : List Char
  gitignore : List Char
  pluginXmlTemplate : List Char

/-- A filesystem path as a list of components. -/
abbrev FilePath' := List (List Char)

/-- `target_dir = os.path.abspath(os.path.join(args.target_dir, project_name))`. -/
def projectRoot (a : InitArgs) : FilePath' := a.targetDir ++ [a.projectName]

/-- `src/main/kotlin/<package split on '.'>` under the project root. -/
def srcMainKotlin (a : InitArgs) : FilePath' :=
  projectRoot a ++ [("src").data, ("main").data, ("kotlin").data]
    ++ splitOnChar '.' a.packageName

/-- `src/main/resources/META-INF` under the project root. -/
def srcMainResources (a : InitArgs) : FilePath' :=
  projectRoot a ++ [("src").data, ("main").data, ("resources").data, ("META-INF").data]

/-- Content written to `settings.gradle.kts` (template with the root-project
name placeholder substituted by the project name). -/
def settingsContent (a : InitArgs) (assets : Assets) : List Char :=
  pyReplace assets.settingsTemplate settingsPh (settingsSub a.projectName)

/-- Content written to `build.gradle.kts` (template with the group
placeholder substituted by the package name). -/
def buildContent (a : InitArgs) (assets : Assets) : List Char :=
  pyReplace assets.buildTemplate groupPh (groupSub a.packageName)

/-- Content written to `plugin.xml`: `plugin_id = package_name`, then the id
placeholder and the display-name placeholder are substituted in turn. -/
def pluginXmlContent (a : InitArgs) (assets : Assets) : List Char :=
  pyReplace (pyReplace assets.pluginXmlTemplate idPh (idSub a.packageName))
    namePh (nameSub a.projectName)

/-- The five file writes performed by `main`, in program order. -/
def initWrites (a : InitArgs) (assets : Assets) : List (FilePath' × List Char) :=
  [ (projectRoot a ++ [("settings.gradle.kts").data], settingsContent a assets),
    (projectRoot a ++ [("build.gradle.kts").data], buildContent a assets),
    (projectRoot a ++ [("gradle.properties").data], assets.gradleProperties),
    (projectRoot a ++ [(".gitignore").data], assets.gitignore),
    (srcMainResources a ++ [("plugin.xml").data], pluginXmlContent a assets) ]

/-- The two `os.makedirs(..., exist_ok=True)` calls of `main`, in order. -/
def initDirs (a : InitArgs) : List FilePath' := [srcMainKotlin a, srcMainResources a]

/-- A flat filesystem model: the set of existing directories and an
association list of file contents (most recent write first). -/
structure FS where
  dirs : List FilePath'
  files : List (FilePath' × List Char)

/-- Model of `os.makedirs(p, exist_ok=ok)`: raises `FileExistsError` when the
directory exists and `exist_ok` is false, otherwise creates the directory and
all its ancestors. -/
def mkdirs (fs : FS) (p : FilePath') (existOk : Bool) : Except (List Char) FS :=
  if p ∈ fs.dirs ∧ existOk = false then Except.error (("FileExistsError").data)
  else Except.ok { fs with dirs := List.inits p ++ fs.dirs }

/-- Model of `open(p, "w").write(content)`: overwrites any previous content. -/
def writeFile (fs : FS) (p : FilePath') (content : List Char) : FS :=
  { fs with files := (p, content) :: fs.files }

/-- Apply a list of file writes in order. -/
def applyWrites (fs : FS) : List (FilePath' × List Char) → FS
  | [] => fs
  | (p, c) :: rest => applyWrites (writeFile fs p c) rest

/-- The whole `main` of `init_project.py` acting on the filesystem:
two `makedirs(..., exist_ok=True)` calls, then the five writes. -/
def initProject (a : InitArgs) (assets : Assets) (fs : FS) : Except (List Char) FS :=
  match mkdirs fs (srcMainKotlin a) true with
  | Except.error e => Except.error e
  | Except.ok fs1 =>
    match mkdirs fs1 (srcMainResources a) true with
    | Except.error e => Except.error e
    | Except.ok fs2 => Except.ok (applyWrites fs2 (initWrites a assets))

/-- Look up the current content of a file. -/
def lookupFile (fs : FS) (p : FilePath') : Option (List Char) :=
  List.lookup p fs.files

/-!
### Helper lemmas about the initializer's paths and filesystem runs
-/

theorem rootFile_ne (a : InitArgs) {x y : List Char} (h : x ≠ y) :
    projectRoot a ++ [x] ≠ projectRoot a ++ [y] := by
  intro he
  exact h (by simpa using List.append_cancel_left he)

theorem resourcesFile_ne_rootFile (a : InitArgs) (x y : List Char) :
    srcMainResources a ++ [x] ≠ projectRoot a ++ [y] := by
  intro h
  have hl := congrArg List.length h
  simp [srcMainResources, List.length_append] at hl

theorem lookupF_cons_self (k : FilePath') (v : List Char)
    (rest : List (FilePath' × List Char)) :
    List.lookup k ((k, v) :: rest) = some v := by
  simp [List.lookup]

theorem lookupF_cons_ne (k k' : FilePath') (v : List Char)
    (rest : List (FilePath' × List Char)) (h : ¬ k = k') :
    List.lookup k ((k', v) :: rest) = List.lookup k rest := by
  simp [List.lookup, beq_eq_false_iff_ne.mpr h]

theorem applyWrites_files (l : List (FilePath' × List Char)) : ∀ (fs : FS),
    (applyWrites fs l).files = l.reverse ++ fs.files := by
  induction l with
  | nil => intro fs; rfl
  | cons pc rest ih =>
    intro fs
    obtain ⟨p, c⟩ := pc
    simp [applyWrites, writeFile, ih, List.append_assoc]

theorem initProject_ok (a : InitArgs) (assets : Assets) (fs : FS) :
    initProject a assets fs = Except.ok (applyWrites
      { fs with dirs := List.inits (srcMainResources a)
          ++ (List.inits (srcMainKotlin a) ++ fs.dirs) }
      (initWrites a assets)) := by
  simp [initProject, mkdirs]

theorem lookup_initWrites (a : InitArgs) (assets : Assets)
    (tail : List (FilePath' × List Char)) :
    ∀ pc ∈ initWrites a assets,
      List.lookup pc.1 ((initWrites a assets).reverse ++ tail) = some pc.2 := by
  have h12 : projectRoot a ++ [("settings.gradle.kts").data]
      ≠ projectRoot a ++ [("build.gradle.kts").data] := rootFile_ne a (by decide)
  have h13 : projectRoot a ++ [("settings.gradle.kts").data]
      ≠ projectRoot a ++ [("gradle.properties").data] := rootFile_ne a (by decide)
  have h14 : projectRoot a ++ [("settings.gradle.kts").data]
      ≠ projectRoot a ++ [(".gitignore").data] := rootFile_ne a (by decide)
  have h23 : projectRoot a ++ [("build.gradle.kts").data]
      ≠ projectRoot a ++ [("gradle.properties").data] := rootFile_ne a (by decide)
  have h24 : projectRoot a ++ [("build.gradle.kts").data]
      ≠ projectRoot a ++ [(".gitignore").data] := rootFile_ne a (by decide)
  have h34 : projectRoot a ++ [("gradle.properties").data]
      ≠ projectRoot a ++ [(".gitignore").data] := rootFile_ne a (by decide)
  have h15 : projectRoot a ++ [("settings.gradle.kts").data]
      ≠ srcMainResources a ++ [("plugin.xml").data] :=
    fun h => resourcesFile_ne_rootFile a _ _ h.symm
  have h25 : projectRoot a ++ [("build.gradle.kts").data]
      ≠ srcMainResources a ++ [("plugin.xml").data] :=
    fun h => resourcesFile_ne_rootFile a _ _ h.symm
  have h35 : projectRoot a ++ [("gradle.properties").data]
      ≠ srcMainResources a ++ [("plugin.xml").data] :=
    fun h => resourcesFile_ne_rootFile a _ _ h.symm
  have h45 : projectRoot a ++ [(".gitignore").data]
      ≠ srcMainResources a ++ [("plugin.xml").data] :=
    fun h => resourcesFile_ne_rootFile a _ _ h.symm
  intro pc hpc
  have hrev : (initWrites a assets).reverse ++ tail
      = (srcMainResources a ++ [("plugin.xml").data], pluginXmlContent a assets)
        :: (projectRoot a ++ [(".gitignore").data], assets.gitignore)
        :: (projectRoot a ++ [("gradle.properties").data], assets.gradleProperties)
        :: (projectRoot a ++ [("build.gradle.kts").data], buildContent a assets)
        :: (projectRoot a ++ [("settings.gradle.kts").data], settingsContent a assets)
        :: tail := by
    simp [initWrites]
  rw [hrev]
  simp only [initWrites, List.mem_cons, List.not_mem_nil, or_false] at hpc
  rcases hpc with rfl | rfl | rfl | rfl | rfl
  · rw [lookupF_cons_ne _ _ _ _ h15, lookupF_cons_ne _ _ _ _ h14,
      lookupF_cons_ne _ _ _ _ h13, lookupF_cons_ne _ _ _ _ h12, lookupF_cons_self]
  · rw [lookupF_cons_ne _ _ _ _ h25, lookupF_cons_ne _ _ _ _ h24,
      lookupF_cons_ne _ _ _ _ h23, lookupF_cons_self]
  · rw [lookupF_cons_ne _ _ _ _ h35, lookupF_cons_ne _ _ _ _ h34, lookupF_cons_self]
  · rw [lookupF_cons_ne _ _ _ _ h45, lookupF_cons_self]
  · rw [lookupF_cons_self]

/-!
### Claims about the project initializer
-/

/-- Arguments used by the counterexample to C1. -/
def cxArgs : InitArgs := ⟨("P").data, ("p.x").data, []⟩

/-- Assets whose settings template contains the root-project-name
placeholder twice in a row. -/
def cxAssets : Assets := ⟨settingsPh ++ settingsPh, [], [], [], []⟩

/-- C1 counterexample: on a template in which the placeholder
`rootProject.name = "my-intellij-plugin"` occurs twice, the initializer
substitutes it twice, not exactly once — Python `str.replace` replaces every
occurrence, so the claim's "exactly once ... regardless of how many times
they occur in the template contents" is false. -/
theorem claim1_counterexample :
    countOcc cxAssets.settingsTemplate settingsPh = 2 ∧
    settingsContent cxArgs cxAssets = settingsSub (("P").data) ++ settingsSub (("P").data) ∧
    countOcc (settingsContent cxArgs cxAssets) (settingsSub (("P").data)) = 2 := by
  refine ⟨by decide, by decide, by decide⟩

/-- C1 (amended): the initializer substitutes every occurrence of each
placeholder; in particular, whenever a placeholder occurs exactly once in its
template, it is substituted exactly once in the written output.  The
hypotheses express that each placeholder occurs exactly once (split position
plus no earlier and no later occurrence). -/
theorem claim1_exactly_once (a : InitArgs) (assets : Assets)
    (sA sB bA bB pA pB qA qB : List Char)
    (hS : assets.settingsTemplate = sA ++ settingsPh ++ sB)
    (hS1 : NoEarly settingsPh sA sB) (hS2 : NoOcc settingsPh sB)
    (hB : assets.buildTemplate = bA ++ groupPh ++ bB)
    (hB1 : NoEarly groupPh bA bB) (hB2 : NoOcc groupPh bB)
    (hP : assets.pluginXmlTemplate = pA ++ idPh ++ pB)
    (hP1 : NoEarly idPh pA pB) (hP2 : NoOcc idPh pB)
    (hQ : pA ++ idSub a.packageName ++ pB = qA ++ namePh ++ qB)
    (hQ1 : NoEarly namePh qA qB) (hQ2 : NoOcc namePh qB) :
    settingsContent a assets = sA ++ settingsSub a.projectName ++ sB ∧
    buildContent a assets = bA ++ groupSub a.packageName ++ bB ∧
    pluginXmlContent a assets = qA ++ nameSub a.projectName ++ qB := by
  refine ⟨?_, ?_, ?_⟩
  · rw [settingsContent, hS, pyReplace_single _ _ _ _ (by decide) hS1 hS2]
  · rw [buildContent, hB, pyReplace_single _ _ _ _ (by decide) hB1 hB2]
  · rw [pluginXmlContent, hP, pyReplace_single _ _ _ _ (by decide) hP1 hP2, hQ,
      pyReplace_single _ _ _ _ (by decide) hQ1 hQ2]

/-- Concrete arguments for the initializer witnesses. -/
def wArgs : InitArgs := ⟨("Demo").data, ("com.acme").data, [("tmp").data]⟩

/-- Concrete assets in which every placeholder occurs exactly once. -/
def wAssets : Assets :=
  ⟨("A\n").data ++ settingsPh ++ ("\nB").data,
   ("C\n").data ++ groupPh ++ ("\nD").data,
   ("props").data,
   ("ignore").data,
   ("E\n").data ++ idPh ++ ("\n").data ++ namePh ++ ("\nF").data⟩

/-- Witness for `claim1_exactly_once` at a concrete project. -/
theorem claim1_exactly_once_witness :
    settingsContent wArgs wAssets
      = ("A\n").data ++ settingsSub (("Demo").data) ++ ("\nB").data ∧
    buildContent wArgs wAssets
      = ("C\n").data ++ groupSub (("com.acme").data) ++ ("\nD").data ∧
    pluginXmlContent wArgs wAssets
      = (("E\n").data ++ idSub (("com.acme").data) ++ ("\n").data)
        ++ nameSub (("Demo").data) ++ ("\nF").data :=
  claim1_exactly_once wArgs wAssets
    (("A\n").data) (("\nB").data) (("C\n").data) (("\nD").data)
    (("E\n").data) (("\n").data ++ namePh ++ ("\nF").data)
    (("E\n").data ++ idSub (("com.acme").data) ++ ("\n").data) (("\nF").data)
    (by decide) (by decide) (by decide)
    (by decide) (by decide) (by decide)
    (by decide) (by decide) (by decide)
    (by decide) (by decide) (by decide)

/-- C3: a run of the initializer writes exactly five files — the four root
files and `plugin.xml` under `src/main/resources/META-INF` — creates the two
directory trees, and writes nothing under the Kotlin source directory
`src/main/kotlin/<package split on '.'>`, which therefore stays empty. -/
theorem claim3_layout (a : InitArgs) (assets : Assets) :
    (initWrites a assets).map Prod.fst =
      [projectRoot a ++ [("settings.gradle.kts").data],
       projectRoot a ++ [("build.gradle.kts").data],
       projectRoot a ++ [("gradle.properties").data],
       projectRoot a ++ [(".gitignore").data],
       projectRoot a ++ [("src").data, ("main").data, ("resources").data,
         ("META-INF").data, ("plugin.xml").data]] ∧
    initDirs a = [projectRoot a ++ ([("src").data, ("main").data, ("kotlin").data]
        ++ splitOnChar '.' a.packageName),
      projectRoot a ++ [("src").data, ("main").data, ("resources").data,
        ("META-INF").data]] ∧
    ∀ pc ∈ initWrites a assets, ∀ rest : FilePath', pc.1 ≠ srcMainKotlin a ++ rest := by
  refine ⟨by simp [initWrites, srcMainResources, List.append_assoc],
          by simp [initDirs, srcMainKotlin, srcMainResources, List.append_assoc], ?_⟩
  intro pc hpc rest
  simp only [initWrites, List.mem_cons, List.not_mem_nil, or_false] at hpc
  have hroot : ∀ x : List Char, projectRoot a ++ [x] ≠ srcMainKotlin a ++ rest := by
    intro x h
    have hl := congrArg List.length h
    simp [srcMainKotlin, List.length_append] at hl
  rcases hpc with rfl | rfl | rfl | rfl | rfl
  · exact hroot _
  · exact hroot _
  · exact hroot _
  · exact hroot _
  · intro h
    simp only [srcMainResources, srcMainKotlin, List.append_assoc] at h
    have h2 := List.append_cancel_left h
    simp only [List.cons_append, List.nil_append] at h2
    injection h2 with _ h3
    injection h3 with _ h4
    injection h4 with h5 _
    exact absurd h5 (by decide)

/-- Witness for `claim3_layout`: the five paths at a concrete project, and
the settings file is not inside the Kotlin source directory. -/
theorem claim3_layout_witness :
    (initWrites wArgs wAssets).map Prod.fst =
      [projectRoot wArgs ++ [("settings.gradle.kts").data],
       projectRoot wArgs ++ [("build.gradle.kts").data],
       projectRoot wArgs ++ [("gradle.properties").data],
       projectRoot wArgs ++ [(".gitignore").data],
       projectRoot wArgs ++ [("src").data, ("main").data, ("resources").data,
         ("META-INF").data, ("plugin.xml").data]] ∧
    projectRoot wArgs ++ [("settings.gradle.kts").data] ≠ srcMainKotlin wArgs ++ [] :=
  ⟨(claim3_layout wArgs wAssets).1,
   (claim3_layout wArgs wAssets).2.2
     (projectRoot wArgs ++ [("settings.gradle.kts").data], settingsContent wArgs wAssets)
     (by simp [initWrites]) []⟩

/-- C9: re-running the initializer with the same arguments over the state
left by a first run succeeds (directory creation passes `exist_ok=True`, so
pre-existing directories do not fail), and each of the five previously
generated files is silently overwritten with the generated content. -/
theorem claim9_rerun (a : InitArgs) (assets : Assets) (fs fs' : FS)
    (h : initProject a assets fs = Except.ok fs') :
    ∃ fs'', initProject a assets fs' = Except.ok fs'' ∧
      fs''.files = (initWrites a assets).reverse ++ fs'.files ∧
      ∀ pc ∈ initWrites a assets,
        lookupFile fs' pc.1 = some pc.2 ∧ lookupFile fs'' pc.1 = some pc.2 := by
  have h1 := initProject_ok a assets fs
  rw [h] at h1
  have hfs' := (Except.ok.injEq _ _).mp h1.symm
  refine ⟨_, initProject_ok a assets fs', applyWrites_files _ _, ?_⟩
  intro pc hpc
  constructor
  · rw [← hfs', lookupFile, applyWrites_files]
    exact lookup_initWrites a assets _ pc hpc
  · rw [lookupFile, applyWrites_files]
    exact lookup_initWrites a assets _ pc hpc

/-- Empty filesystem used by the C9 witness. -/
def fs0 : FS := ⟨[], []⟩

/-- Witness for `claim9_rerun`: a concrete first run, then the re-run. -/
theorem claim9_rerun_witness :
    ∃ fs'', initProject wArgs wAssets (applyWrites
        { fs0 with dirs := List.inits (srcMainResources wArgs)
            ++ (List.inits (srcMainKotlin wArgs) ++ fs0.dirs) }
        (initWrites wArgs wAssets)) = Except.ok fs'' ∧
      fs''.files = (initWrites wArgs wAssets).reverse ++ (applyWrites
        { fs0 with dirs := List.inits (srcMainResources wArgs)
            ++ (List.inits (srcMainKotlin wArgs) ++ fs0.dirs) }
        (initWrites wArgs wAssets)).files ∧
      ∀ pc ∈ initWrites wArgs wAssets,
        lookupFile (applyWrites
          { fs0 with dirs := List.inits (srcMainResources wArgs)
              ++ (List.inits (srcMainKotlin wArgs) ++ fs0.dirs) }
          (initWrites wArgs wAssets)) pc.1 = some pc.2 ∧
        lookupFile fs'' pc.1 = some pc.2 :=
  claim9_rerun wArgs wAssets fs0 _ (initProject_ok wArgs wAssets fs0)

/-- C10: in the generated `plugin.xml` the id placeholder is replaced by the
package name and the display-name placeholder by the project name (not the
other way around).  The first equation is the leftmost-occurrence law of the
id substitution (every occurrence is substituted, recursing on the rest);
the second locates the display name in the final output. -/
theorem claim10_plugin_xml (a : InitArgs) (assets : Assets)
    (pA pB qA qB : List Char)
    (hP : assets.pluginXmlTemplate = pA ++ idPh ++ pB)
    (hP1 : NoEarly idPh pA pB)
    (hQ : pA ++ idSub a.packageName ++ pyReplace pB idPh (idSub a.packageName)
        = qA ++ namePh ++ qB)
    (hQ1 : NoEarly namePh qA qB) (hQ2 : NoOcc namePh qB) :
    pyReplace assets.pluginXmlTemplate idPh (idSub a.packageName)
      = pA ++ idSub a.packageName ++ pyReplace pB idPh (idSub a.packageName) ∧
    pluginXmlContent a assets = qA ++ nameSub a.projectName ++ qB := by
  have hid : pyReplace assets.pluginXmlTemplate idPh (idSub a.packageName)
      = pA ++ idSub a.packageName ++ pyReplace pB idPh (idSub a.packageName) := by
    rw [hP]
    exact pyReplace_split _ _ _ _ (by decide) hP1
  refine ⟨hid, ?_⟩
  rw [pluginXmlContent, hid, hQ, pyReplace_single _ _ _ _ (by decide) hQ1 hQ2]

/-- Witness for `claim10_plugin_xml` at a concrete project: the package name
lands inside `<id>...</id>` and the project name inside `<name>...</name>`. -/
theorem claim10_plugin_xml_witness :
    pyReplace wAssets.pluginXmlTemplate idPh (idSub (("com.acme").data))
      = ("E\n").data ++ idSub (("com.acme").data)
        ++ pyReplace (("\n").data ++ namePh ++ ("\nF").data) idPh
             (idSub (("com.acme").data)) ∧
    pluginXmlContent wArgs wAssets
      = (("E\n").data ++ idSub (("com.acme").data) ++ ("\n").data)
        ++ nameSub (("Demo").data) ++ ("\nF").data :=
  claim10_plugin_xml wArgs wAssets
    (("E\n").data) (("\n").data ++ namePh ++ ("\nF").data)
    (("E\n").data ++ idSub (("com.acme").data) ++ ("\n").data) (("\nF").data)
    (by decide) (by decide) (by decide) (by decide) (by decide)

/-!
## Session client (`scripts/simple_client.py`)

The network is an oracle mapping each request to either a transport error or
an HTTP response.  Response bodies are modelled as already-parsed JSON values
(`response.json()`); a success response whose body is not JSON is out of
scope of the claims.  `BASE_URL` is fixed in the script, so requests are
identified by method and path relative to it.
-/

/-- A JSON value as parsed by `response.json()`. -/
inductive JVal where
  | null : JVal
  | bool : Bool → JVal
  | num : Int → JVal
  | str : List Char → JVal
  | arr : List JVal → JVal
  | obj : List (List Char × JVal) → JVal

/-- Python `d[k]` on a parsed JSON value: `some` on a dict that has the key,
`none` otherwise (CPython raises `KeyError` / `TypeError`; the model merges
the two). -/
def jGet : JVal → List Char → Option JVal
  | JVal.obj kvs, k => lookupKV kvs k
  | _, _ => none
where
  lookupKV : List (List Char × JVal) → List Char → Option JVal
    | [], _ => none
    | (k', v) :: rest, k => if k' = k then some v else lookupKV rest k

/-- Python `len(...)` on a parsed JSON value (`some` for str/list/dict,
`none` meaning `TypeError`). -/
def jLen : JVal → Option Nat
  | JVal.arr xs => some xs.length
  | JVal.obj kvs => some kvs.length
  | JVal.str s => some s.length
  | _ => none

/-- Whether a JSON object carries the given key. -/
def jHasKey : JVal → List Char → Bool
  | JVal.obj kvs, k => kvs.any (fun kv => kv.1 == k)
  | _, _ => false

mutual
/-- Python `repr` of a parsed JSON value (used by `str` for non-strings;
container punctuation follows CPython, module spacing details that no claim
inspects). -/
def pyReprJ : JVal → List Char
  | JVal.null => ("None").data
  | JVal.bool true => ("True").data
  | JVal.bool false => ("False").data
  | JVal.num n => (toString n).data
  | JVal.str s => [Char.ofNat 39] ++ s ++ [Char.ofNat 39]
  | JVal.arr xs => [Char.ofNat 91] ++ pyReprList xs ++ [Char.ofNat 93]
  | JVal.obj kvs => [Char.ofNat 123] ++ pyReprPairs kvs ++ [Char.ofNat 125]

/-- Comma-separated reprs of a list of values. -/
def pyReprList : List JVal → List Char
  | [] => []
  | [x] => pyReprJ x
  | x :: xs => pyReprJ x ++ (", ").data ++ pyReprList xs

/-- Comma-separated `key: value` reprs of a dict. -/
def pyReprPairs : List (List Char × JVal) → List Char
  | [] => []
  | [(k, v)] => [Char.ofNat 39] ++ k ++ [Char.ofNat 39] ++ (": ").data ++ pyReprJ v
  | (k, v) :: kvs => [Char.ofNat 39] ++ k ++ [Char.ofNat 39] ++ (": ").data ++ pyReprJ v
      ++ (", ").data ++ pyReprPairs kvs
end

/-- Python `str(...)` of a parsed JSON value (as interpolated by the
f-string building the message URL). -/
def pyStr : JVal → List Char
  | JVal.str s => s
  | v => pyReprJ v

/-- HTTP method of a request issued by the client. -/
inductive Method where
  | get : Method
  | post : Method
deriving DecidableEq

/-- A request issued by the client: method, path relative to `BASE_URL`,
and optional JSON body. -/
structure Request where
  method : Method
  path : List Char
  body : Option JVal

/-- Transport-level outcome classes of `requests`: a connection error
(`requests.exceptions.ConnectionError`) or any other request exception. -/
inductive NetErr where
  | connectionError : NetErr
  | otherException : NetErr
deriving DecidableEq

/-- An HTTP response: status code and parsed JSON body. -/
structure HttpResponse where
  status : Nat
  json : JVal

/-- Python exceptions the client can terminate with. -/
inductive PyExc where
  | httpError : Nat → PyExc
  | netExc : NetErr → PyExc
  | keyError : PyExc
  | typeError : PyExc
  | systemExit : Nat → PyExc

/-- The network environment: what the server answers to each request. -/
def NetOracle : Type := Request → Except NetErr HttpResponse

/-- Path of the health check `GET {BASE_URL}/doc`. -/
def docPath : List Char := ("/doc").data

/-- Path of `GET/POST {BASE_URL}/session`. -/
def sessionPath : List Char := ("/session").data

/-- Path of `POST {BASE_URL}/session/{session_id}/message`. -/
def msgPath (sessionId : List Char) : List Char :=
  ("/session/").data ++ sessionId ++ ("/message").data

/-- The health-check request. -/
def docRequest : Request := ⟨Method.get, docPath, none⟩

/-- The list-sessions request. -/
def listRequest : Request := ⟨Method.get, sessionPath, none⟩

/-- `create_session`'s JSON payload: `{}` plus `title` when the title is
truthy (`if title:` — `None` and `""` are falsy). -/
def createPayload : Option (List Char) → JVal
  | none => JVal.obj []
  | some t => if t = [] then JVal.obj [] else JVal.obj [(("title").data, JVal.str t)]

/-- The create-session request for a given title. -/
def createRequestFor (title : Option (List Char)) : Request :=
  ⟨Method.post, sessionPath, some (createPayload title)⟩

/-- `send_message`'s JSON payload:
`{"parts": [{"type": "text", "text": message}]}`. -/
def msgPayload (message : List Char) : JVal :=
  JVal.obj [(("parts").data,
    JVal.arr [JVal.obj [(("type").data, JVal.str (("text").data)),
                        (("text").data, JVal.str message)]])]

/-- The send-message request for a session id and message. -/
def msgRequest (sessionId message : List Char) : Request :=
  ⟨Method.post, msgPath sessionId, some (msgPayload message)⟩

/-- `response.raise_for_status()`: raises `HTTPError` exactly for the 4xx
and 5xx status codes. -/
def raiseForStatus (r : HttpResponse) : Except PyExc Unit :=
  if 400 ≤ r.status ∧ r.status < 600 then Except.error (PyExc.httpError r.status)
  else Except.ok ()

/-- Issue one request and handle the response the way all three session
operations do: propagate transport errors, `raise_for_status()`, then
return `response.json()`. -/
def doRequest (net : NetOracle) (req : Request) : Except PyExc JVal :=
  match net req with
  | Except.error e => Except.error (PyExc.netExc e)
  | Except.ok r =>
    match raiseForStatus r with
    | Except.error e => Except.error e
    | Except.ok _ => Except.ok r.json

/-- `check_server()`: `GET /doc`, returning `status == 200`; a
`ConnectionError` yields `False`, any other exception propagates. -/
def checkServer (net : NetOracle) : Request × Except PyExc Bool :=
  (docRequest,
    match net docRequest with
    | Except.error NetErr.connectionError => Except.ok false
    | Except.error NetErr.otherException => Except.error (PyExc.netExc NetErr.otherException)
    | Except.ok r => Except.ok (r.status == 200))

/-- `list_sessions()`: `GET /session`, raise for status, return the JSON. -/
def listSessions (net : NetOracle) : Request × Except PyExc JVal :=
  (listRequest, doRequest net listRequest)

/-- `create_session(title)`: `POST /session` with the payload, raise for
status, return the JSON. -/
def createSession (net : NetOracle) (title : Option (List Char)) :
    Request × Except PyExc JVal :=
  (createRequestFor title, doRequest net (createRequestFor title))

/-- `send_message(session_id, message)`: `POST /session/{id}/message` with
the parts payload, raise for status, return the JSON. -/
def sendMessage (net : NetOracle) (sessionId message : List Char) :
    Request × Except PyExc JVal :=
  (msgRequest sessionId message, doRequest net (msgRequest sessionId message))

/-- The title `main` passes to `create_session`. -/
def clientTitle : List Char := ("Test Session from Client").data

/-- The request `main`'s `create_session` call issues. -/
def createRequest : Request := createRequestFor (some clientTitle)

/-- The message `main` sends. -/
def clientMessage : List Char := ("Hello, can you tell me what is 2 + 2?").data

/-- `main()` of the session client: returns the requests issued in order and
the final outcome (`sys.exit(1)` is `systemExit 1`; an uncaught exception is
the corresponding `PyExc`; success carries the final JSON response).
`len(sessions)` and `session["id"]` are the two places `main` touches the
returned JSON. -/
def mainClient (net : NetOracle) : List Request × Except PyExc JVal :=
  match (checkServer net).2 with
  | Except.error e => ([docRequest], Except.error e)
  | Except.ok false => ([docRequest], Except.error (PyExc.systemExit 1))
  | Except.ok true =>
    match (listSessions net).2 with
    | Except.error e => ([docRequest, listRequest], Except.error e)
    | Except.ok sessions =>
      match jLen sessions with
      | none => ([docRequest, listRequest], Except.error PyExc.typeError)
      | some _ =>
        match (createSession net (some clientTitle)).2 with
        | Except.error e => ([docRequest, listRequest, createRequest], Except.error e)
        | Except.ok session =>
          match jGet session (("id").data) with
          | none => ([docRequest, listRequest, createRequest], Except.error PyExc.keyError)
          | some v =>
            ([docRequest, listRequest, createRequest, msgRequest (pyStr v) clientMessage],
             (sendMessage net (pyStr v) clientMessage).2)

/-- The session id `main` would extract from the create-session response. -/
def expectedSid (net : NetOracle) : List Char :=
  match (createSession net (some clientTitle)).2 with
  | Except.ok session =>
    match jGet session (("id").data) with
    | some v => pyStr v
    | none => []
  | Except.error _ => []

/-- The full request sequence of a completely successful run. -/
def expectedSeq (net : NetOracle) : List Request :=
  [docRequest, listRequest, createRequest, msgRequest (expectedSid net) clientMessage]

/-!
### Helper lemmas about the client's requests
-/

theorem req_ne_of_method {r1 r2 : Request} (h : r1.method ≠ r2.method) : r1 ≠ r2 :=
  fun he => h (he ▸ rfl)

theorem req_ne_of_path {r1 r2 : Request} (h : r1.path ≠ r2.path) : r1 ≠ r2 :=
  fun he => h (he ▸ rfl)

theorem doc_ne_list : docRequest ≠ listRequest :=
  req_ne_of_path (by decide)

theorem doc_ne_create : docRequest ≠ createRequest :=
  req_ne_of_method (fun h => Method.noConfusion h)

theorem doc_ne_msg (sid m : List Char) : docRequest ≠ msgRequest sid m :=
  req_ne_of_method (fun h => Method.noConfusion h)

theorem list_ne_create : listRequest ≠ createRequest :=
  req_ne_of_method (fun h => Method.noConfusion h)

theorem sessionPath_ne_msgPath (sid : List Char) : sessionPath ≠ msgPath sid := by
  intro h
  have hl := congrArg List.length h
  have e1 : ((("/session").data : List Char)).length = 8 := by decide
  have e2 : ((("/session/").data : List Char)).length = 9 := by decide
  have e3 : ((("/message").data : List Char)).length = 8 := by decide
  simp only [sessionPath, msgPath, List.length_append, e1, e2, e3] at hl
  omega

theorem list_ne_msg (sid m : List Char) : listRequest ≠ msgRequest sid m :=
  req_ne_of_path (sessionPath_ne_msgPath sid)

theorem create_ne_msg (sid m : List Char) : createRequest ≠ msgRequest sid m :=
  req_ne_of_path (sessionPath_ne_msgPath sid)

theorem trace2_nodup : [docRequest, listRequest].Nodup := by
  simp [List.nodup_cons, doc_ne_list]

theorem trace3_nodup : [docRequest, listRequest, createRequest].Nodup := by
  simp [List.nodup_cons, List.mem_cons]
  exact ⟨⟨doc_ne_list, doc_ne_create⟩, list_ne_create⟩

theorem trace4_nodup (sid m : List Char) :
    [docRequest, listRequest, createRequest, msgRequest sid m].Nodup := by
  simp [List.nodup_cons, List.mem_cons]
  exact ⟨⟨doc_ne_list, doc_ne_create, doc_ne_msg sid m⟩,
    ⟨list_ne_create, list_ne_msg sid m⟩, create_ne_msg sid m⟩

/-- The claim-side class of HTTP error statuses (requests' 4xx and 5xx). -/
def httpErrorStatus (n : Nat) : Prop := 400 ≤ n ∧ n < 600

instance (n : Nat) : Decidable (httpErrorStatus n) :=
  inferInstanceAs (Decidable (400 ≤ n ∧ n < 600))

theorem doRequest_spec (net : NetOracle) (req : Request) (r : HttpResponse)
    (h : net req = Except.ok r) :
    ((doRequest net req = Except.error (PyExc.httpError r.status)) ↔ httpErrorStatus r.status) ∧
    (¬ httpErrorStatus r.status → doRequest net req = Except.ok r.json) := by
  unfold doRequest raiseForStatus
  rw [h]
  by_cases he : 400 ≤ r.status ∧ r.status < 600
  · simp [he, httpErrorStatus]
  · simp [he, httpErrorStatus]

/-!
### Claims about the session client
-/

/-- The claim-side class of HTTP success statuses (2xx). -/
def successStatus (n : Nat) : Prop := 200 ≤ n ∧ n < 300

instance (n : Nat) : Decidable (successStatus n) :=
  inferInstanceAs (Decidable (200 ≤ n ∧ n < 300))

/-- Oracle whose server answers every request with `204 No Content`. -/
def net204 : NetOracle := fun _ => Except.ok ⟨204, JVal.null⟩

/-- C2 counterexample: `204` is a success status, yet `check_server` returns
false for it, because the code tests `status_code == 200` rather than
"responds with a success status". -/
theorem claim2_counterexample :
    successStatus 204 ∧ (checkServer net204).2 = Except.ok false :=
  ⟨by decide, rfl⟩

/-- C2 (amended): `check_server` returns false on a connection error, and on
a response it returns true exactly when the status code is `200`. -/
theorem claim2_check_server (net : NetOracle) :
    (net docRequest = Except.error NetErr.connectionError →
      (checkServer net).2 = Except.ok false) ∧
    (∀ r : HttpResponse, net docRequest = Except.ok r →
      ((checkServer net).2 = Except.ok true ↔ r.status = 200)) := by
  constructor
  · intro h
    simp [checkServer, h]
  · intro r h
    simp [checkServer, h]

/-- Oracle with no server listening: every request raises `ConnectionError`. -/
def netDown : NetOracle := fun _ => Except.error NetErr.connectionError

/-- Oracle whose server answers every request with `200` and a null body. -/
def net200 : NetOracle := fun _ => Except.ok ⟨200, JVal.null⟩

/-- Witness for `claim2_check_server` on both a dead and a live server. -/
theorem claim2_check_server_witness :
    (checkServer netDown).2 = Except.ok false ∧ (checkServer net200).2 = Except.ok true :=
  ⟨(claim2_check_server netDown).1 rfl,
   ((claim2_check_server net200).2 ⟨200, JVal.null⟩ rfl).mpr rfl⟩

/-- Keys of a JSON object (empty for non-objects). -/
def objKeys : JVal → List (List Char)
  | JVal.obj kvs => kvs.map Prod.fst
  | _ => []

/-- C4: each session operation issues exactly the specified request:
`list_sessions` sends `GET /session`; `create_session` sends `POST /session`
with a JSON object containing at most the key `title`; `send_message` sends
`POST /session/{id}/message` with the parts payload. -/
theorem claim4_requests (net : NetOracle) (title : Option (List Char))
    (sid msg : List Char) :
    (listSessions net).1 = ⟨Method.get, sessionPath, none⟩ ∧
    (createSession net title).1 = ⟨Method.post, sessionPath, some (createPayload title)⟩ ∧
    (objKeys (createPayload title) = [] ∨
      objKeys (createPayload title) = [("title").data]) ∧
    (sendMessage net sid msg).1 = ⟨Method.post,
      ("/session/").data ++ sid ++ ("/message").data,
      some (JVal.obj [(("parts").data,
        JVal.arr [JVal.obj [(("type").data, JVal.str (("text").data)),
                            (("text").data, JVal.str msg)]])])⟩ := by
  refine ⟨rfl, rfl, ?_, rfl⟩
  cases title with
  | none => exact Or.inl rfl
  | some t =>
    by_cases ht : t = []
    · exact Or.inl (by simp [createPayload, ht, objKeys])
    · exact Or.inr (by simp [createPayload, ht, objKeys])

/-- C5: each of the three operations raises exactly when the response status
is an HTTP error status (4xx/5xx), and otherwise returns the parsed JSON
body unchanged. -/
theorem claim5_raise_iff (net : NetOracle) (title : Option (List Char))
    (sid msg : List Char) (r : HttpResponse) :
    (net listRequest = Except.ok r →
      (((listSessions net).2 = Except.error (PyExc.httpError r.status)) ↔
        httpErrorStatus r.status) ∧
      (¬ httpErrorStatus r.status → (listSessions net).2 = Except.ok r.json)) ∧
    (net (createRequestFor title) = Except.ok r →
      (((createSession net title).2 = Except.error (PyExc.httpError r.status)) ↔
        httpErrorStatus r.status) ∧
      (¬ httpErrorStatus r.status → (createSession net title).2 = Except.ok r.json)) ∧
    (net (msgRequest sid msg) = Except.ok r →
      (((sendMessage net sid msg).2 = Except.error (PyExc.httpError r.status)) ↔
        httpErrorStatus r.status) ∧
      (¬ httpErrorStatus r.status → (sendMessage net sid msg).2 = Except.ok r.json)) :=
  ⟨fun h => doRequest_spec net listRequest r h,
   fun h => doRequest_spec net (createRequestFor title) r h,
   fun h => doRequest_spec net (msgRequest sid msg) r h⟩

/-- Oracle whose server answers every request with `404`. -/
def net404 : NetOracle := fun _ => Except.ok ⟨404, JVal.null⟩

/-- Witness for `claim5_raise_iff`: a 404 raises `HTTPError`, a 200 returns
the JSON body. -/
theorem claim5_raise_iff_witness :
    (listSessions net404).2 = Except.error (PyExc.httpError 404) ∧
    (listSessions net200).2 = Except.ok JVal.null :=
  ⟨((claim5_raise_iff net404 none [] [] ⟨404, JVal.null⟩).1 rfl).1.mpr (by decide),
   ((claim5_raise_iff net200 none [] [] ⟨200, JVal.null⟩).1 rfl).2 (by decide)⟩

/-- C7: when the health check reports the server unreachable, `main` exits
with status 1 having issued only the one `GET /doc` request. -/
theorem claim7_exit (net : NetOracle) (h : (checkServer net).2 = Except.ok false) :
    mainClient net = ([docRequest], Except.error (PyExc.systemExit 1)) := by
  simp [mainClient, h]

/-- Witness for `claim7_exit` with no server listening. -/
theorem claim7_exit_witness :
    (checkServer netDown).2 = Except.ok false ∧
    mainClient netDown = ([docRequest], Except.error (PyExc.systemExit 1)) :=
  ⟨rfl, claim7_exit netDown rfl⟩

/-- C8: a falsy title (`None` or `""`) makes `create_session` send the empty
JSON object `{}` — an empty-string title is silently dropped — and the
payload carries the key `title` exactly when the title is truthy. -/
theorem claim8_payload (net : NetOracle) (title : Option (List Char)) :
    ((title = none ∨ title = some []) →
      (createSession net title).1.body = some (JVal.obj [])) ∧
    (createSession net title).1.body = some (createPayload title) ∧
    (jHasKey (createPayload title) (("title").data) = true ↔
      ∃ t, title = some t ∧ t ≠ []) := by
  refine ⟨?_, rfl, ?_⟩
  · rintro (rfl | rfl)
    · rfl
    · rfl
  · cases title with
    | none => simp [createPayload, jHasKey]
    | some t =>
      by_cases ht : t = []
      · subst ht
        simp [createPayload, jHasKey]
      · simp [createPayload, ht, jHasKey]

/-- Witness for `claim8_payload`: the empty-string title yields `{}`, a
non-empty title yields a payload carrying `title`. -/
theorem claim8_payload_witness :
    (createSession netDown (some [])).1.body = some (JVal.obj []) ∧
    jHasKey (createPayload (some (("T").data))) (("title").data) = true :=
  ⟨(claim8_payload netDown (some [])).1 (Or.inr rfl),
   (claim8_payload netDown (some (("T").data))).2.2.mpr ⟨("T").data, rfl, by decide⟩⟩

/-- Oracle whose health endpoint answers `200` but every other request
answers `500`. -/
def netC6 : NetOracle := fun req =>
  if req.path = docPath then Except.ok ⟨200, JVal.null⟩ else Except.ok ⟨500, JVal.null⟩

/-- C6 counterexample: the health check succeeds, yet the run issues only
`GET /doc` and `GET /session` (both GETs) — `POST /session` is never sent,
because the `HTTPError` raised on the failed `GET /session` aborts `main`.
The claim's "one GET /session, one POST /session, and one POST
/session/{id}/message" after a successful health check is therefore false. -/
theorem claim6_counterexample :
    (checkServer netC6).2 = Except.ok true ∧
    (mainClient netC6).1 = [docRequest, listRequest] ∧
    (mainClient netC6).1.map Request.method = [Method.get, Method.get] :=
  ⟨rfl, rfl, rfl⟩

/-- C6 (amended): the requests of a run form a prefix of the fixed sequence
`GET /doc`, `GET /session`, `POST /session`, `POST /session/{id}/message`,
truncated at the first failing call; no request is ever repeated, so nothing
is retried; and when every call succeeds (health check `200`, no error
status, a list-shaped session list, a session id in the create response)
the full sequence is issued in that order. -/
theorem claim6_sequence (net : NetOracle) :
    (∃ t, expectedSeq net = (mainClient net).1 ++ t) ∧
    (mainClient net).1.Nodup ∧
    (∀ (r0 r1 r2 r3 : HttpResponse) (v : JVal),
      net docRequest = Except.ok r0 → r0.status = 200 →
      net listRequest = Except.ok r1 → ¬ httpErrorStatus r1.status →
      jLen r1.json ≠ none →
      net createRequest = Except.ok r2 → ¬ httpErrorStatus r2.status →
      jGet r2.json (("id").data) = some v →
      net (msgRequest (pyStr v) clientMessage) = Except.ok r3 →
      ¬ httpErrorStatus r3.status →
      (mainClient net).1 = [docRequest, listRequest, createRequest,
        msgRequest (pyStr v) clientMessage] ∧
      (mainClient net).2 = Except.ok r3.json) := by
  refine ⟨?_, ?_, ?_⟩
  · rcases hc : (checkServer net).2 with e | b
    · exact ⟨[listRequest, createRequest, msgRequest (expectedSid net) clientMessage],
        by simp [mainClient, hc, expectedSeq]⟩
    · cases b with
      | false =>
        exact ⟨[listRequest, createRequest, msgRequest (expectedSid net) clientMessage],
          by simp [mainClient, hc, expectedSeq]⟩
      | true =>
        rcases hl : (listSessions net).2 with e | sessions
        · exact ⟨[createRequest, msgRequest (expectedSid net) clientMessage],
            by simp [mainClient, hc, hl, expectedSeq]⟩
        · rcases hlen : jLen sessions with _ | n
          · exact ⟨[createRequest, msgRequest (expectedSid net) clientMessage],
              by simp [mainClient, hc, hl, hlen, expectedSeq]⟩
          · rcases hcr : (createSession net (some clientTitle)).2 with e | session
            · refine ⟨[msgRequest (expectedSid net) clientMessage], ?_⟩
              simp [mainClient, hc, hl, hlen, hcr, expectedSeq]
            · rcases hid : jGet session (("id").data) with _ | v
              · refine ⟨[msgRequest (expectedSid net) clientMessage], ?_⟩
                simp [mainClient, hc, hl, hlen, hcr, hid, expectedSeq]
              · refine ⟨[], ?_⟩
                have hsid : expectedSid net = pyStr v := by
                  simp [expectedSid, hcr, hid]
                simp [mainClient, hc, hl, hlen, hcr, hid, expectedSeq, hsid]
  · rcases hc : (checkServer net).2 with e | b
    · simp [mainClient, hc]
    · cases b with
      | false => simp [mainClient, hc]
      | true =>
        rcases hl : (listSessions net).2 with e | sessions
        · simp only [mainClient, hc, hl]
          exact trace2_nodup
        · rcases hlen : jLen sessions with _ | n
          · simp only [mainClient, hc, hl, hlen]
            exact trace2_nodup
          · rcases hcr : (createSession net (some clientTitle)).2 with e | session
            · simp only [mainClient, hc, hl, hlen, hcr]
              exact trace3_nodup
            · rcases hid : jGet session (("id").data) with _ | v
              · simp only [mainClient, hc, hl, hlen, hcr, hid]
                exact trace3_nodup
              · simp only [mainClient, hc, hl, hlen, hcr, hid]
                exact trace4_nodup (pyStr v) clientMessage
  · intro r0 r1 r2 r3 v h0 hst0 h1 herr1 hlen h2 herr2 hid h3 herr3
    have hch : (checkServer net).2 = Except.ok true := by
      simp [checkServer, h0, hst0]
    have hls : (listSessions net).2 = Except.ok r1.json :=
      (doRequest_spec net listRequest r1 h1).2 herr1
    obtain ⟨n, hn⟩ : ∃ n, jLen r1.json = some n := by
      cases hj : jLen r1.json with
      | none => exact absurd hj hlen
      | some n => exact ⟨n, rfl⟩
    have hcs : (createSession net (some clientTitle)).2 = Except.ok r2.json :=
      (doRequest_spec net createRequest r2 h2).2 herr2
    have hsm : (sendMessage net (pyStr v) clientMessage).2 = Except.ok r3.json :=
      (doRequest_spec net (msgRequest (pyStr v) clientMessage) r3 h3).2 herr3
    constructor
    · simp [mainClient, hch, hls, hn, hcs, hid]
    · simp [mainClient, hch, hls, hn, hcs, hid, hsm]

/-- Oracle of a fully successful run: health `200`, an empty session list,
a created session with id `s1`, and a `200` answer to the message. -/
def netW : NetOracle := fun req =>
  if req.path = docPath then Except.ok ⟨200, JVal.null⟩
  else if req.method = Method.get then Except.ok ⟨200, JVal.arr []⟩
  else if req.path = sessionPath then
    Except.ok ⟨200, JVal.obj [(("id").data, JVal.str (("s1").data))]⟩
  else Except.ok ⟨200, JVal.num 7⟩

/-- Witness for `claim6_sequence`: on `netW` the full four-request sequence
is issued and the final JSON is returned. -/
theorem claim6_sequence_witness :
    (mainClient netW).1 = [docRequest, listRequest, createRequest,
      msgRequest (("s1").data) clientMessage] ∧
    (mainClient netW).2 = Except.ok (JVal.num 7) :=
  (claim6_sequence netW).2.2 ⟨200, JVal.null⟩ ⟨200, JVal.arr []⟩
    ⟨200, JVal.obj [(("id").data, JVal.str (("s1").data))]⟩ ⟨200, JVal.num 7⟩
    (JVal.str (("s1").data)) rfl rfl rfl (by decide) (by decide) rfl (by decide)
    rfl rfl (by decide)
